import Mathlib

/-!
Verification of the OMNIBOOKS reading-session engine.

The definitions below are a shallow embedding of the reading-session core:

* the durable book store (src/src/components/Discover.tsx, services/db section:
  `addBook`, `getBook`, `updateBookProgress`, `toggleBookmark`, `addNote`,
  `deleteNote`), modelled as a key-addressed map `String → Option Book`;
* the `Reader` component state and its handlers (src/unnamed/part_000,
  `Reader`: `changePage`, `scrollToPage`, `handleSetScale`, the mobile zoom
  button, the fit-to-width toggle, the resize observer, the page-number input
  commit handlers, `handleAddNote`, `handleToggleBookmark`);
* the `LazyPage` virtualization component (src/unnamed/part_000, `LazyPage`),
  modelled as a state machine over its two `useEffect` reactions, the
  intersection-observer callback, and the render-success callback;
* the debounced progress writer (src/unnamed/part_000, the `useEffect` with a
  1000 ms `setTimeout` keyed on `[pageNumber, numPages, book.id]`), modelled as
  a function from a timestamped change sequence to the list of performed writes.

JavaScript numbers holding page indices and counts are modelled as `Int`;
zoom scales, widths and measured heights (floats whose exact rounding is
irrelevant to every claim below) are modelled as `ℚ`; timestamps as `Nat`.
JavaScript truthiness of optional numbers (`0` and `undefined` are falsy) is
modelled explicitly where the source relies on it.
-/

/-- Note record (src/unnamed/part_003, `interface Note`). -/
structure Note where
  id : String
  page : Int
  content : String
  date : Nat
  color : Option String
deriving DecidableEq

/-- Book record (src/unnamed/part_003, `interface Book`).  Fields irrelevant to
every claim (`title`, `author`, `coverUrl`, `fileBlob`, `format`, `dateAdded`,
`category`, `tags`, ...) are elided except those the persisted-session claims
touch: `progress`, `totalPages`, `lastRead`, `bookmarks`, `notes`. -/
structure Book where
  id : String
  progress : Int
  totalPages : Int
  lastRead : Option Nat
  bookmarks : List Int
  notes : List Note
deriving DecidableEq

/-- The durable store (IndexedDB object store keyed on `id`,
src/src/components/Discover.tsx db section), as a key-addressed map. -/
abbrev Store : Type := String → Option Book

/-- The store holding no books. -/
def emptyStore : Store := fun _ => none

/-- db.get (src/src/components/Discover.tsx, `getBook`). -/
def getBook (store : Store) (id : String) : Option Book := store id

/-- db.put keyed on the record's `id` field (the object store uses
`keyPath: 'id'`). -/
def putBook (store : Store) (b : Book) : Store :=
  fun k => if k = b.id then some b else store k

/-- addBook (src/src/components/Discover.tsx line 767): a bare `db.put`. -/
def addBook (store : Store) (b : Book) : Store := putBook store b

/-- updateBookProgress (src/src/components/Discover.tsx lines 803-812): fetch
the book; if present, overwrite `progress`, `totalPages`, `lastRead` and put it
back; if absent, do nothing.  `now` stands for `Date.now()`. -/
def updateBookProgress (store : Store) (id : String) (progress totalPages : Int)
    (now : Nat) : Store :=
  match getBook store id with
  | some book =>
      putBook store
        { book with progress := progress, totalPages := totalPages, lastRead := some now }
  | none => store

/-- The bookmark-flipping core of toggleBookmark
(src/src/components/Discover.tsx lines 820-825): if the page is present, keep
every entry different from it (`filter(p => p !== page)`); otherwise push the
page and sort ascending (`push(page); sort((a, b) => a - b)`). -/
def toggleBookmarkList (page : Int) (bookmarks : List Int) : List Int :=
  if page ∈ bookmarks then bookmarks.filter (fun p => p != page)
  else List.insertionSort (fun a b => a ≤ b) (bookmarks ++ [page])

/-- toggleBookmark (src/src/components/Discover.tsx lines 814-830): on a
present book, flip membership of `page` in its bookmark list, write the book
back and return the updated list; on an absent id, return `[]` and leave the
store untouched. -/
def toggleBookmark (store : Store) (id : String) (page : Int) :
    List Int × Store :=
  match getBook store id with
  | some book =>
      let bms := toggleBookmarkList page book.bookmarks
      (bms, putBook store { book with bookmarks := bms })
  | none => ([], store)

/-- addNote (src/src/components/Discover.tsx lines 832-842): on a present book,
push the note at the end of its note list, write the book back and return the
updated list; on an absent id, return `[]` and leave the store untouched. -/
def addNote (store : Store) (id : String) (note : Note) : List Note × Store :=
  match getBook store id with
  | some book =>
      let ns := book.notes ++ [note]
      (ns, putBook store { book with notes := ns })
  | none => ([], store)

/-- deleteNote (src/src/components/Discover.tsx lines 855-865): on a present
book, drop every note whose id equals `noteId` (`filter(n => n.id !== noteId)`),
write the book back and return the updated list; on an absent id, return `[]`
and leave the store untouched. -/
def deleteNote (store : Store) (id : String) (noteId : String) :
    List Note × Store :=
  match getBook store id with
  | some book =>
      let ns := book.notes.filter (fun n => n.id != noteId)
      (ns, putBook store { book with notes := ns })
  | none => ([], store)

/-- View mode of the Reader (src/unnamed/part_000 line 327). -/
inductive ViewMode
  | single
  | scroll
deriving DecidableEq

/-- Save-status signal of the Reader (src/unnamed/part_000 line 330). -/
inductive SaveStatus
  | saved
  | saving
deriving DecidableEq

/-- The Reader component's state (src/unnamed/part_000 lines 319-335), one
field per `useState` hook relevant to the claims.  `pageHeights` mirrors the
`Record<number, number>` geometry cache as an association list.  `pageInput`
holds the `parseInt` reading of the page-number input's text: `none` models
text that parses to `NaN`. -/
structure ReaderState where
  bookId : String
  numPages : Int
  pageNumber : Int
  scale : ℚ
  bookmarks : List Int
  notes : List Note
  newNoteContent : String
  viewMode : ViewMode
  containerWidth : Option ℚ
  saveStatus : SaveStatus
  isAutoFit : Bool
  pageHeights : List (Int × ℚ)
  pageInput : Option Int
deriving DecidableEq

/-- Initial page on mount (src/unnamed/part_000 line 320,
`useState(book.progress || 1)`): `0` is falsy in JavaScript. -/
def initialPage (book : Book) : Int :=
  if book.progress = 0 then 1 else book.progress

/-- The Reader state at mount time (src/unnamed/part_000 lines 319-335):
`numPages` is `0` until `onDocumentLoadSuccess` fires. -/
def initReaderState (book : Book) : ReaderState where
  bookId := book.id
  numPages := 0
  pageNumber := initialPage book
  scale := 1
  bookmarks := book.bookmarks
  notes := book.notes
  newNoteContent := ""
  viewMode := ViewMode.single
  containerWidth := none
  saveStatus := SaveStatus.saved
  isAutoFit := false
  pageHeights := []
  pageInput := some (initialPage book)

/-- scrollToPage (src/unnamed/part_000 lines 411-419): sets `pageNumber`; the
smooth-scroll DOM side effect carries no session state. -/
def scrollToPage (page : Int) (s : ReaderState) : ReaderState :=
  { s with pageNumber := page }

/-- changePage (src/unnamed/part_000 lines 421-424):
`Math.min(Math.max(1, pageNumber + offset), numPages)`. -/
def changePage (offset : Int) (s : ReaderState) : ReaderState :=
  scrollToPage (min (max 1 (s.pageNumber + offset)) s.numPages) s

/-- handleSetScale (src/unnamed/part_000 lines 519-523): clears the auto-fit
flag, sets the scale and empties the geometry cache. -/
def handleSetScale (newScale : ℚ) (s : ReaderState) : ReaderState :=
  { s with isAutoFit := false, scale := newScale, pageHeights := [] }

/-- The desktop zoom-out button (src/unnamed/part_000 line 666):
`handleSetScale(s => Math.max(0.5, s - 0.1))`. -/
def zoomOutClick (s : ReaderState) : ReaderState :=
  handleSetScale (max (1/2) (s.scale - 1/10)) s

/-- The desktop zoom-in button (src/unnamed/part_000 line 673):
`handleSetScale(s => Math.min(2.5, s + 0.1))`. -/
def zoomInClick (s : ReaderState) : ReaderState :=
  handleSetScale (min (5/2) (s.scale + 1/10)) s

/-- The mobile zoom button (src/unnamed/part_000 line 996):
`setScale(s => s >= 1.5 ? 1.0 : s + 0.25)` — a raw `setScale`, not
`handleSetScale`, so it touches no other field. -/
def mobileZoomClick (s : ReaderState) : ReaderState :=
  { s with scale := if s.scale ≥ 3/2 then 1 else s.scale + 1/4 }

/-- The fit-to-width toggle button (src/unnamed/part_000 line 634):
`setIsAutoFit(!isAutoFit)` and nothing else. -/
def toggleAutoFitClick (s : ReaderState) : ReaderState :=
  { s with isAutoFit := !s.isAutoFit }

/-- The resize observer callback (src/unnamed/part_000 lines 381-390): stores
the padded content width and empties the geometry cache. -/
def handleResize (contentWidth padding : ℚ) (s : ReaderState) : ReaderState :=
  { s with containerWidth := some (contentWidth - padding), pageHeights := [] }

/-- getPageWidth (src/unnamed/part_000 lines 513-517): the effective render
width fed to every page. -/
def getPageWidth (s : ReaderState) : Option ℚ :=
  match s.containerWidth with
  | none => none
  | some cw => if s.isAutoFit then some cw else some (min (cw * s.scale) (800 * s.scale))

/-- Lookup in the association-list model of `Record<number, number>`. -/
def lookupHeight (hs : List (Int × ℚ)) (page : Int) : Option ℚ :=
  (hs.find? (fun e => e.1 == page)).map (fun e => e.2)

/-- Key update in the association-list model of `{...prev, [page]: height}`. -/
def setHeight (hs : List (Int × ℚ)) (page : Int) (h : ℚ) : List (Int × ℚ) :=
  if (hs.find? (fun e => e.1 == page)).isSome then
    hs.map (fun e => if e.1 == page then (e.1, h) else e)
  else hs ++ [(page, h)]

/-- handlePageLoad (src/unnamed/part_000 lines 344-349): record a measured
page height, keeping the cache untouched when the value is unchanged. -/
def handlePageLoad (page : Int) (h : ℚ) (s : ReaderState) : ReaderState :=
  if lookupHeight s.pageHeights page = some h then s
  else { s with pageHeights := setHeight s.pageHeights page h }

/-- shouldForceLoad (src/unnamed/part_000 line 773):
`Math.abs(pageNum - pageNumber) <= 4`. -/
def shouldForceLoad (pageNum currentPage : Int) : Bool :=
  decide ((pageNum - currentPage).natAbs ≤ 4)

/-- Whether the page-number input commit handlers accept a parsed value
(src/unnamed/part_000 lines 580-595): `!isNaN(val) && val >= 1 && val <= numPages`. -/
def isValidPageInput (val : Option Int) (numPages : Int) : Bool :=
  match val with
  | some v => decide (1 ≤ v) && decide (v ≤ numPages)
  | none => false

/-- The Enter-key handler of the page-number input (src/unnamed/part_000 lines
578-586): a valid value jumps, anything else is ignored. -/
def pageInputEnter (s : ReaderState) : ReaderState :=
  match s.pageInput with
  | some v => if 1 ≤ v ∧ v ≤ s.numPages then scrollToPage v s else s
  | none => s

/-- The blur handler of the page-number input (src/unnamed/part_000 lines
588-596) combined with the sync effect of lines 338-342 (which rewrites the
input text to `pageNumber.toString()` once focus is gone): a valid value
jumps, an invalid or non-numeric one leaves `pageNumber` alone and reverts the
visible input to the last valid value. -/
def pageInputBlur (s : ReaderState) : ReaderState :=
  match s.pageInput with
  | some v =>
      if 1 ≤ v ∧ v ≤ s.numPages then
        { scrollToPage v s with pageInput := some v }
      else { s with pageInput := some s.pageNumber }
  | none => { s with pageInput := some s.pageNumber }

/-- handleToggleBookmark (src/unnamed/part_000 lines 426-431): write-through
toggle; the handler ends with `saveStatus = 'saved'`. -/
def handleToggleBookmark (store : Store) (s : ReaderState) :
    ReaderState × Store :=
  let r := toggleBookmark store s.bookId s.pageNumber
  ({ s with bookmarks := r.1, saveStatus := SaveStatus.saved }, r.2)

/-- JavaScript `String.prototype.trim`: strip leading and trailing
whitespace.  Written over the character list so that it evaluates by kernel
reduction. -/
def jsTrim (s : String) : String :=
  String.mk
    (List.reverse (List.dropWhile Char.isWhitespace
      (List.reverse (List.dropWhile Char.isWhitespace s.data))))

/-- handleAddNote (src/unnamed/part_000 lines 433-449): empty or
whitespace-only content (`!newNoteContent.trim()`) returns before touching any
state; otherwise a note with a fresh id (`uuidv4()`, supplied here as
`freshId`) and the `Date.now()` timestamp is appended through the db and the
input is cleared. -/
def handleAddNote (freshId : String) (now : Nat) (store : Store)
    (s : ReaderState) : ReaderState × Store :=
  if jsTrim s.newNoteContent = "" then (s, store)
  else
    let note : Note :=
      { id := freshId, page := s.pageNumber, content := s.newNoteContent,
        date := now, color := some "bg-yellow-100" }
    let r := addNote store s.bookId note
    ({ s with notes := r.1, newNoteContent := "", saveStatus := SaveStatus.saved }, r.2)

/-- JavaScript truthiness of the `pageHeight` state of `LazyPage`
(`number | undefined`): `undefined` and `0` are falsy. -/
def jsTruthyHeight (h : Option ℚ) : Bool :=
  match h with
  | some x => x != 0
  | none => false

/-- Local state of one `LazyPage` (src/unnamed/part_000 lines 203-208):
`isInView` (mounted or placeholder), the `isIntersectingRef` flag, and the
locally measured `pageHeight`. -/
structure LazyPageState where
  isInView : Bool
  isIntersecting : Bool
  pageHeight : Option ℚ
deriving DecidableEq

/-- LazyPage state at mount (src/unnamed/part_000 lines 204-208):
`useState(forceLoad)` and `useState(initialHeight)`. -/
def lazyPageInit (forceLoad : Bool) (initialHeight : Option ℚ) : LazyPageState :=
  { isInView := forceLoad, isIntersecting := false, pageHeight := initialHeight }

/-- Events a `LazyPage` reacts to: the intersection-observer callback (lines
215-229), the `[forceLoad, pageHeight]` effect (lines 240-246), a successful
render measurement (lines 278-284), and the `[scale, width]` reset effect
(lines 210-212). -/
inductive LPEvent
  | intersect (isIntersecting : Bool)
  | syncEffect
  | renderSuccess (h : ℚ)
  | widthScaleChange

/-- One `LazyPage` transition.  The parent recomputes `forceLoad`
(`shouldForceLoad`) on every render, so the current value is an input. -/
def lazyPageStep (forceLoad : Bool) (e : LPEvent) (s : LazyPageState) :
    LazyPageState :=
  match e with
  | LPEvent.intersect b =>
      let s1 := { s with isIntersecting := b }
      if b then { s1 with isInView := true }
      else if jsTruthyHeight s.pageHeight && !forceLoad then
        { s1 with isInView := false }
      else s1
  | LPEvent.syncEffect =>
      if forceLoad then { s with isInView := true }
      else if !s.isIntersecting && jsTruthyHeight s.pageHeight then
        { s with isInView := false }
      else s
  | LPEvent.renderSuccess h => { s with pageHeight := some h }
  | LPEvent.widthScaleChange => { s with pageHeight := none }

/-- Placeholder fallback height (src/unnamed/part_000 line 255):
`width ? width * 1.414 : 600`. -/
def widthFallbackHeight (width : Option ℚ) : ℚ :=
  match width with
  | some w => if w = 0 then 600 else w * (1414/1000)
  | none => 600

/-- The `minHeight` style of a page slot (src/unnamed/part_000 line 255):
`pageHeight ? pageHeight : (width ? width * 1.414 : 600)`. -/
def placeholderMinHeight (width : Option ℚ) (s : LazyPageState) : ℚ :=
  match s.pageHeight with
  | some h => if h = 0 then widthFallbackHeight width else h
  | none => widthFallbackHeight width

/-- The debounced progress writer (src/unnamed/part_000 lines 397-404).  Each
observed change `(t, p)` clears the previously scheduled timeout and schedules
a write of `p` for time `t + interval`; a change arriving strictly before that
deadline cancels it.  Given the timestamped change sequence, this returns the
pages actually written, in order. -/
def debouncedWrites (interval : Nat) : List (Nat × Int) → List Int
  | [] => []
  | [(_, p)] => [p]
  | (t₁, p₁) :: (t₂, p₂) :: rest =>
      if t₂ < t₁ + interval then debouncedWrites interval ((t₂, p₂) :: rest)
      else p₁ :: debouncedWrites interval ((t₂, p₂) :: rest)

/-! Concrete fixtures used by counterexamples and witnesses. -/

/-- A freshly uploaded book (UploadModal, src/unnamed/part_000 lines 1075-1089:
`progress: 0`, `totalPages: 0`, empty bookmarks and notes). -/
def sampleBook : Book :=
  { id := "b1", progress := 0, totalPages := 0, lastRead := none,
    bookmarks := [], notes := [] }

/-- A mid-session Reader state over a loaded 50-page document. -/
def loadedReaderState : ReaderState :=
  { initReaderState sampleBook with
      numPages := 50, pageNumber := 3, containerWidth := some 1000,
      pageHeights := [(1, 800), (2, 790)] }

/-! Theorems settling the claims. -/

theorem putBook_putBook_same (store : Store) (b : Book) :
    putBook (putBook store b) b = putBook store b := by
  funext k
  by_cases h : k = b.id <;> simp [putBook, h]

/-- C1 counterexample: the state at Reader mount time (document not yet
loaded, so `numPages = 0`) is reachable, and the keyboard ArrowRight handler
(src/unnamed/part_000 lines 458-463) can invoke `changePage 1` there.
`Math.min(Math.max(1, 1 + 1), 0)` is `0`, outside `[1, max(pageCount, 1)] = [1, 1]`,
so the clamp does not keep `currentPage` in range when `pageCount = 0`. -/
theorem changePage_pageCount_zero_escapes_range :
    (changePage 1 (initReaderState sampleBook)).pageNumber = 0 ∧
    ¬ (1 ≤ (changePage 1 (initReaderState sampleBook)).pageNumber ∧
        (changePage 1 (initReaderState sampleBook)).pageNumber ≤
          max (changePage 1 (initReaderState sampleBook)).numPages 1) := by
  decide

/-- C1 (amended): whenever the document has loaded (`pageCount ≥ 1`),
`changePage delta` computes exactly `clamp(currentPage + delta, 1, pageCount)`,
which lies in `[1, max(pageCount, 1)]` for every integer `delta` — so
out-of-range navigation is clamped and never errors; the `pageCount = 0`
pre-load state is the sole exception, where the clamp yields `0`. -/
theorem changePage_clamps (s : ReaderState) (delta : Int) (h : 1 ≤ s.numPages) :
    (changePage delta s).pageNumber = min (max 1 (s.pageNumber + delta)) s.numPages ∧
    1 ≤ (changePage delta s).pageNumber ∧
    (changePage delta s).pageNumber ≤ max s.numPages 1 := by
  have hdef : (changePage delta s).pageNumber
      = min (max 1 (s.pageNumber + delta)) s.numPages := rfl
  rw [hdef]
  omega

/-- Witness for C1 (amended): a loaded 50-page document, `currentPage = 3`,
`delta = 100` clamps to page 50. -/
theorem changePage_clamps_witness :
    1 ≤ loadedReaderState.numPages ∧
    ((changePage 100 loadedReaderState).pageNumber =
        min (max 1 (loadedReaderState.pageNumber + 100)) loadedReaderState.numPages ∧
      1 ≤ (changePage 100 loadedReaderState).pageNumber ∧
      (changePage 100 loadedReaderState).pageNumber ≤ max loadedReaderState.numPages 1) :=
  ⟨by decide, changePage_clamps loadedReaderState 100 (by decide)⟩

/-- C3: the mobile zoom button (src/unnamed/part_000 line 996) calls the raw
`setScale` instead of `handleSetScale`, so it changes the zoom scale without
clearing the `pageHeights` geometry cache; the fit-to-width toggle (line 634)
likewise changes the effective render width (`getPageWidth`) while keeping the
stale cache.  The dedicated `handleSetScale` path and the resize observer do
clear the cache, as the spec describes. -/
theorem mobileZoom_keeps_stale_heights :
    loadedReaderState.scale = 1 ∧
    (mobileZoomClick loadedReaderState).scale = 5/4 ∧
    (mobileZoomClick loadedReaderState).pageHeights = [(1, 800), (2, 790)] ∧
    (toggleAutoFitClick loadedReaderState).pageHeights = [(1, 800), (2, 790)] ∧
    getPageWidth (toggleAutoFitClick loadedReaderState) ≠ getPageWidth loadedReaderState ∧
    (handleSetScale (5/4) loadedReaderState).pageHeights = [] ∧
    (handleResize 1064 64 loadedReaderState).pageHeights = [] := by
  refine ⟨rfl, ?_, rfl, rfl, ?_, rfl, rfl⟩
  · show (if (1:ℚ) ≥ 3/2 then 1 else 1 + 1/4) = 5/4
    norm_num
  · show (some (1000:ℚ) : Option ℚ) ≠ some (min (1000 * 1) (800 * 1))
    simp only [ne_eq, Option.some.injEq]
    norm_num

theorem getBook_putBook (store : Store) (b : Book) (k : String) :
    getBook (putBook store b) k = if k = b.id then some b else store k := rfl

theorem updateBookProgress_of_get (store : Store) (id : String)
    (progress totalPages : Int) (now : Nat) (book : Book)
    (h : getBook store id = some book) :
    updateBookProgress store id progress totalPages now
      = putBook store { book with progress := progress, totalPages := totalPages, lastRead := some now } := by
  simp [updateBookProgress, h]

theorem updateBookProgress_of_none (store : Store) (id : String)
    (progress totalPages : Int) (now : Nat) (h : getBook store id = none) :
    updateBookProgress store id progress totalPages now = store := by
  simp [updateBookProgress, h]

theorem updateBookProgress_idem (store : Store) (id : String)
    (progress totalPages : Int) (now : Nat) :
    updateBookProgress (updateBookProgress store id progress totalPages now)
        id progress totalPages now
      = updateBookProgress store id progress totalPages now := by
  cases h : getBook store id with
  | none =>
    rw [updateBookProgress_of_none store id progress totalPages now h,
      updateBookProgress_of_none store id progress totalPages now h]
  | some book =>
    set bk : Book := { book with progress := progress, totalPages := totalPages, lastRead := some now } with hbk
    rw [updateBookProgress_of_get store id progress totalPages now book h]
    rcases eq_or_ne id book.id with hid | hid
    · have h2 : getBook (putBook store bk) id = some bk := by
        rw [getBook_putBook]
        have hpos : id = bk.id := hid
        rw [if_pos hpos]
      rw [updateBookProgress_of_get (putBook store bk) id progress totalPages now bk h2]
      have hsame : { bk with progress := progress, totalPages := totalPages, lastRead := some now } = bk := rfl
      rw [hsame]
      exact putBook_putBook_same store bk
    · have h2 : getBook (putBook store bk) id = some book := by
        rw [getBook_putBook]
        have hne : ¬ id = bk.id := hid
        rw [if_neg hne]
        exact h
      rw [updateBookProgress_of_get (putBook store bk) id progress totalPages now book h2]
      exact putBook_putBook_same store bk

/-- C8: the durable write path is idempotent.  `addBook` is a bare keyed put,
so putting the same record twice is the same as putting it once;
`updateBookProgress` run twice with the same arguments (including the same
`Date.now()` value, since `lastRead` is part of the record) equals running it
once, hence a subsequent `getBook` read returns an equal record both times. -/
theorem durable_write_idempotent (store : Store) (b : Book) (id : String)
    (progress totalPages : Int) (now : Nat) :
    addBook (addBook store b) b = addBook store b ∧
    updateBookProgress (updateBookProgress store id progress totalPages now)
        id progress totalPages now
      = updateBookProgress store id progress totalPages now ∧
    getBook (updateBookProgress (updateBookProgress store id progress totalPages now)
        id progress totalPages now) id
      = getBook (updateBookProgress store id progress totalPages now) id := by
  refine ⟨putBook_putBook_same store b, updateBookProgress_idem store id progress totalPages now, ?_⟩
  rw [updateBookProgress_idem store id progress totalPages now]

/-- C10: every durable mutation called with an id that is absent from the
store is a total no-op on the store, and `toggleBookmark`, `addNote` and
`deleteNote` return the empty list in that case. -/
theorem absent_id_mutations_noop (store : Store) (id : String)
    (progress totalPages : Int) (now : Nat) (page : Int) (note : Note)
    (noteId : String) (h : getBook store id = none) :
    updateBookProgress store id progress totalPages now = store ∧
    toggleBookmark store id page = ([], store) ∧
    addNote store id note = ([], store) ∧
    deleteNote store id noteId = ([], store) := by
  refine ⟨?_, ?_, ?_, ?_⟩ <;>
    simp [updateBookProgress, toggleBookmark, addNote, deleteNote, h]

/-- Witness for C10 at the empty store. -/
theorem absent_id_mutations_noop_witness :
    getBook emptyStore "missing" = none ∧
    (updateBookProgress emptyStore "missing" 7 50 123 = emptyStore ∧
      toggleBookmark emptyStore "missing" 3 = ([], emptyStore) ∧
      addNote emptyStore "missing" ⟨"n1", 3, "hi", 0, none⟩ = ([], emptyStore) ∧
      deleteNote emptyStore "missing" "n1" = ([], emptyStore)) :=
  ⟨rfl, absent_id_mutations_noop emptyStore "missing" 7 50 123 3
    ⟨"n1", 3, "hi", 0, none⟩ "n1" rfl⟩

/-- C2: debounce coalescing.  If every change in the sequence arrives strictly
before the 1000 ms quiet interval of its predecessor has elapsed, then exactly
one durable write occurs, and it carries the page value of the last change —
each change restarts the timer instead of queuing an extra write. -/
theorem debounce_coalesces (e : Nat × Int) (es : List (Nat × Int))
    (h : List.Chain' (fun a b => b.1 < a.1 + 1000) (e :: es)) :
    debouncedWrites 1000 (e :: es) = [(es.getLastD e).2] := by
  induction es generalizing e with
  | nil =>
    obtain ⟨t, p⟩ := e
    rfl
  | cons e2 es ih =>
    obtain ⟨t1, p1⟩ := e
    obtain ⟨t2, p2⟩ := e2
    rw [List.chain'_cons] at h
    have h12 : t2 < t1 + 1000 := h.1
    show debouncedWrites 1000 ((t1, p1) :: (t2, p2) :: es) = _
    rw [debouncedWrites, if_pos h12, ih (t2, p2) h.2, List.getLastD_cons]

/-- Witness for C2: three changes 0 ms, 400 ms and 900 ms apart coalesce into
the single write of the last page, 7. -/
theorem debounce_coalesces_witness :
    List.Chain' (fun (a b : Nat × Int) => b.1 < a.1 + 1000) [(0, 5), (400, 6), (900, 7)] ∧
    debouncedWrites 1000 [(0, 5), (400, 6), (900, 7)] = [7] :=
  ⟨by norm_num [List.chain'_cons],
    debounce_coalesces (0, 5) [(400, 6), (900, 7)] (by norm_num [List.chain'_cons])⟩

/-- C6: committing the page-number input.  A parsed value `n` with
`1 ≤ n ≤ pageCount` jumps there: `currentPage` reads back as `n` (on both the
Enter and the blur commit paths).  An out-of-range or non-numeric value
(`pageInput = none`) is rejected: `currentPage` is unchanged and the blur path
reverts the visible input to the last valid value instead of erroring. -/
theorem pageInput_commit (s : ReaderState) (v : Option Int) :
    (∀ n : Int, v = some n → 1 ≤ n → n ≤ s.numPages →
        (pageInputBlur { s with pageInput := v }).pageNumber = n ∧
        (pageInputBlur { s with pageInput := v }).pageInput = some n ∧
        (pageInputEnter { s with pageInput := v }).pageNumber = n) ∧
    (isValidPageInput v s.numPages = false →
        (pageInputBlur { s with pageInput := v }).pageNumber = s.pageNumber ∧
        (pageInputBlur { s with pageInput := v }).pageInput = some s.pageNumber ∧
        pageInputEnter { s with pageInput := v } = { s with pageInput := v }) := by
  constructor
  · rintro n rfl h1 h2
    refine ⟨?_, ?_, ?_⟩ <;> simp [pageInputBlur, pageInputEnter, scrollToPage, h1, h2]
  · intro hinv
    cases v with
    | none => exact ⟨rfl, rfl, rfl⟩
    | some n =>
      have hc : ¬ (1 ≤ n ∧ n ≤ s.numPages) := by
        intro hcon
        simp [isValidPageInput, hcon.1, hcon.2] at hinv
      refine ⟨?_, ?_, ?_⟩ <;> simp [pageInputBlur, pageInputEnter, scrollToPage, hc]

/-- Witness for C6 on the loaded 50-page state: input 7 jumps to page 7;
input 99 is rejected and leaves `currentPage` at 3. -/
theorem pageInput_commit_witness :
    ((1:Int) ≤ 7 ∧ (7:Int) ≤ loadedReaderState.numPages ∧
      (pageInputBlur { loadedReaderState with pageInput := some 7 }).pageNumber = 7) ∧
    (isValidPageInput (some 99) loadedReaderState.numPages = false ∧
      (pageInputBlur { loadedReaderState with pageInput := some 99 }).pageNumber
        = loadedReaderState.pageNumber) :=
  ⟨⟨by decide, by decide,
      ((pageInput_commit loadedReaderState (some 7)).1 7 rfl (by decide) (by decide)).1⟩,
    ⟨by decide, ((pageInput_commit loadedReaderState (some 99)).2 (by decide)).1⟩⟩

/-- C7: `handleAddNote` rejects empty or whitespace-only content before any
state is touched, in memory or durably; with non-empty content it builds a
note carrying the fresh id and the current timestamp, appends it at the end of
the stored note list (creation order, unsorted) and returns the updated
list. -/
theorem addNote_validates_and_appends (store : Store) (s : ReaderState)
    (freshId : String) (now : Nat) :
    (jsTrim s.newNoteContent = "" → handleAddNote freshId now store s = (s, store)) ∧
    (∀ book : Book, getBook store s.bookId = some book → jsTrim s.newNoteContent ≠ "" →
        (handleAddNote freshId now store s).1.notes
            = book.notes ++ [{ id := freshId, page := s.pageNumber, content := s.newNoteContent, date := now, color := some "bg-yellow-100" }] ∧
        (handleAddNote freshId now store s).2
            = putBook store { book with notes := book.notes ++ [{ id := freshId, page := s.pageNumber, content := s.newNoteContent, date := now, color := some "bg-yellow-100" }] }) := by
  constructor
  · intro h
    simp [handleAddNote, h]
  · intro book hb hne
    constructor <;> simp [handleAddNote, addNote, hne, hb]

/-- A stored book used by the C7 witness. -/
def storedBook : Book :=
  { id := "b1", progress := 3, totalPages := 50, lastRead := none,
    bookmarks := [2, 5], notes := [] }

/-- A one-book store used by the C7 witness. -/
def sampleStore : Store := putBook emptyStore storedBook

/-- A Reader state with note text typed in, used by the C7 witness. -/
def noteReaderState : ReaderState :=
  { loadedReaderState with newNoteContent := "hello", pageNumber := 5 }

/-- Witness for C7: adding the note "hello" on page 5 appends it to the
stored book's (empty) note list; whitespace-only content is a no-op. -/
theorem addNote_validates_and_appends_witness :
    getBook sampleStore noteReaderState.bookId = some storedBook ∧
    jsTrim noteReaderState.newNoteContent ≠ "" ∧
    (handleAddNote "id9" 777 sampleStore noteReaderState).1.notes
      = storedBook.notes ++ [{ id := "id9", page := 5, content := "hello", date := 777, color := some "bg-yellow-100" }] ∧
    jsTrim "  " = "" ∧
    handleAddNote "id9" 777 sampleStore { noteReaderState with newNoteContent := "  " }
      = ({ noteReaderState with newNoteContent := "  " }, sampleStore) :=
  ⟨rfl, by decide,
    (((addNote_validates_and_appends sampleStore noteReaderState "id9" 777).2)
        storedBook rfl (by decide)).1,
    by decide,
    ((addNote_validates_and_appends sampleStore
        { noteReaderState with newNoteContent := "  " } "id9" 777).1) (by decide)⟩

theorem not_mem_filter_ne (l : List Int) (p : Int) :
    p ∉ l.filter (fun x => x != p) := by
  simp [List.mem_filter]

theorem filter_ne_of_not_mem (l : List Int) (p : Int) (h : p ∉ l) :
    l.filter (fun x => x != p) = l := by
  rw [List.filter_eq_self]
  intro a ha
  simp only [bne_iff_ne, ne_eq]
  rintro rfl
  exact h ha

theorem insertionSort_filter_append (l : List Int) (p : Int)
    (hs : l.Sorted (· ≤ ·)) (hnd : l.Nodup) (hp : p ∈ l) :
    List.insertionSort (fun a b => a ≤ b) (l.filter (fun x => x != p) ++ [p]) = l := by
  refine List.eq_of_perm_of_sorted ?_ (List.sorted_insertionSort (fun a b : Int => a ≤ b) _) hs
  have h1 := List.perm_insertionSort (fun a b : Int => a ≤ b) (l.filter (fun x => x != p) ++ [p])
  have h2 := List.perm_append_singleton p (l.filter (fun x => x != p))
  have h3 : l.filter (fun x => x != p) = l.erase p := (hnd.erase_eq_filter p).symm
  have h4 : l.Perm (p :: l.erase p) := List.perm_cons_erase hp
  have h5 : (p :: l.filter (fun x => x != p)).Perm l := by
    rw [h3]
    exact h4.symm
  exact h1.trans (h2.trans h5)

theorem filter_insertionSort_append (l : List Int) (p : Int)
    (hs : l.Sorted (· ≤ ·)) (hp : p ∉ l) :
    (List.insertionSort (fun a b => a ≤ b) (l ++ [p])).filter (fun x => x != p) = l := by
  refine List.eq_of_perm_of_sorted ?_ ?_ hs
  · have h1 := (List.perm_insertionSort (fun a b : Int => a ≤ b) (l ++ [p])).filter (fun x => x != p)
    rw [List.filter_append] at h1
    have h2 : [p].filter (fun x => x != p) = [] := by simp
    rw [h2, filter_ne_of_not_mem l p hp, List.append_nil] at h1
    exact h1
  · exact List.Pairwise.filter _ (List.sorted_insertionSort (fun a b : Int => a ≤ b) _)

theorem toggleBookmarkList_involutive (l : List Int) (p : Int)
    (hs : l.Sorted (· ≤ ·)) (hnd : l.Nodup) :
    toggleBookmarkList p (toggleBookmarkList p l) = l := by
  by_cases hp : p ∈ l
  · have hin : toggleBookmarkList p l = l.filter (fun x => x != p) := by
      rw [toggleBookmarkList, if_pos hp]
    rw [hin, toggleBookmarkList, if_neg (not_mem_filter_ne l p)]
    exact insertionSort_filter_append l p hs hnd hp
  · have hin : toggleBookmarkList p l
        = List.insertionSort (fun a b : Int => a ≤ b) (l ++ [p]) := by
      rw [toggleBookmarkList, if_neg hp]
    have hmem : p ∈ List.insertionSort (fun a b : Int => a ≤ b) (l ++ [p]) := by
      rw [(List.perm_insertionSort (fun a b : Int => a ≤ b) (l ++ [p])).mem_iff]
      simp
    rw [hin, toggleBookmarkList, if_pos hmem]
    exact filter_insertionSort_append l p hs hp

theorem toggleBookmarkList_preserves (p : Int) (l : List Int)
    (hs : l.Sorted (· ≤ ·)) (hnd : l.Nodup) :
    (toggleBookmarkList p l).Sorted (· ≤ ·) ∧ (toggleBookmarkList p l).Nodup := by
  by_cases hp : p ∈ l
  · rw [toggleBookmarkList, if_pos hp]
    exact ⟨List.Pairwise.filter _ hs, hnd.filter _⟩
  · rw [toggleBookmarkList, if_neg hp]
    refine ⟨List.sorted_insertionSort (fun a b : Int => a ≤ b) _, ?_⟩
    refine ((List.perm_insertionSort (fun a b : Int => a ≤ b) (l ++ [p])).nodup_iff).mpr ?_
    rw [List.nodup_append]
    exact ⟨hnd, List.nodup_singleton p, by simp [List.disjoint_singleton, hp]⟩

/-- A sequence of db-level `toggleBookmark` calls against one document id. -/
def applyToggles (store : Store) (id : String) (ops : List Int) : Store :=
  ops.foldl (fun st p => (toggleBookmark st id p).2) store

theorem toggleBookmark_of_get (store : Store) (id : String) (p : Int) (book : Book)
    (hb : getBook store id = some book) :
    toggleBookmark store id p
      = (toggleBookmarkList p book.bookmarks, putBook store { book with bookmarks := toggleBookmarkList p book.bookmarks }) := by
  simp [toggleBookmark, hb]

/-- C5: `toggleBookmark` is its own inverse.  On any session whose stored
bookmark list satisfies the bookmark-set invariant (ascending, duplicate-free —
the shape every reachable session has, see the C9 theorem), toggling the same
page twice returns the bookmark list to its prior value, both in the returned
list and in the durable record. -/
theorem toggleBookmark_twice (store : Store) (id : String) (p : Int) (book : Book)
    (hb : getBook store id = some book) (hid : book.id = id)
    (hs : book.bookmarks.Sorted (· ≤ ·)) (hnd : book.bookmarks.Nodup) :
    (toggleBookmark (toggleBookmark store id p).2 id p).1 = book.bookmarks ∧
    getBook (toggleBookmark (toggleBookmark store id p).2 id p).2 id = some book := by
  have h1 := toggleBookmark_of_get store id p book hb
  have h2 : getBook (putBook store { book with bookmarks := toggleBookmarkList p book.bookmarks }) id
      = some { book with bookmarks := toggleBookmarkList p book.bookmarks } := by
    rw [getBook_putBook]
    have hc : id = Book.id { book with bookmarks := toggleBookmarkList p book.bookmarks } := hid.symm
    rw [if_pos hc]
  rw [h1]
  have h3 := toggleBookmark_of_get (putBook store { book with bookmarks := toggleBookmarkList p book.bookmarks }) id p
    { book with bookmarks := toggleBookmarkList p book.bookmarks } h2
  rw [h3]
  have hinv := toggleBookmarkList_involutive book.bookmarks p hs hnd
  constructor
  · exact hinv
  · rw [getBook_putBook]
    have hc2 : id = Book.id { book with bookmarks := toggleBookmarkList p (toggleBookmarkList p book.bookmarks) } := hid.symm
    rw [if_pos hc2, hinv]

/-- Witness for C5 on the one-book store: toggling page 3 twice on bookmarks
`[2, 5]` restores them. -/
theorem toggleBookmark_twice_witness :
    getBook sampleStore "b1" = some storedBook ∧
    storedBook.id = "b1" ∧
    ((toggleBookmark (toggleBookmark sampleStore "b1" 3).2 "b1" 3).1 = storedBook.bookmarks ∧
      getBook (toggleBookmark (toggleBookmark sampleStore "b1" 3).2 "b1" 3).2 "b1" = some storedBook) :=
  ⟨rfl, rfl, toggleBookmark_twice sampleStore "b1" 3 storedBook rfl rfl (by decide) (by decide)⟩

/-- C9: any sequence of `toggleBookmark` operations starting from a
duplicate-free ascending bookmark list keeps the stored bookmark list
duplicate-free and sorted ascending — the list rendered for display is read
straight from this store, so every read sees it sorted and without
duplicates. -/
theorem toggles_keep_sorted_nodup (ops : List Int) (store : Store) (id : String) (book : Book)
    (hb : getBook store id = some book) (hid : book.id = id)
    (hs : book.bookmarks.Sorted (· ≤ ·)) (hnd : book.bookmarks.Nodup) :
    getBook (applyToggles store id ops) id
      = some { book with bookmarks := ops.foldl (fun acc p => toggleBookmarkList p acc) book.bookmarks } ∧
    (ops.foldl (fun acc p => toggleBookmarkList p acc) book.bookmarks).Sorted (· ≤ ·) ∧
    (ops.foldl (fun acc p => toggleBookmarkList p acc) book.bookmarks).Nodup := by
  induction ops generalizing store book with
  | nil => exact ⟨hb, hs, hnd⟩
  | cons p ops ih =>
    have h1 := toggleBookmark_of_get store id p book hb
    have h2 : getBook (putBook store { book with bookmarks := toggleBookmarkList p book.bookmarks }) id
        = some { book with bookmarks := toggleBookmarkList p book.bookmarks } := by
      rw [getBook_putBook]
      have hc : id = Book.id { book with bookmarks := toggleBookmarkList p book.bookmarks } := hid.symm
      rw [if_pos hc]
    have hpres := toggleBookmarkList_preserves p book.bookmarks hs hnd
    have hstep : applyToggles store id (p :: ops)
        = applyToggles (putBook store { book with bookmarks := toggleBookmarkList p book.bookmarks }) id ops := by
      simp [applyToggles, h1]
    rw [hstep]
    exact ih (putBook store { book with bookmarks := toggleBookmarkList p book.bookmarks })
      { book with bookmarks := toggleBookmarkList p book.bookmarks } h2 hid hpres.1 hpres.2

/-- Witness for C9: toggling pages 7, 2 and 3 in turn on bookmarks `[2, 5]`
leaves a stored list that is still sorted and duplicate-free. -/
theorem toggles_keep_sorted_nodup_witness :
    getBook sampleStore "b1" = some storedBook ∧
    storedBook.id = "b1" ∧
    (getBook (applyToggles sampleStore "b1" [7, 2, 3]) "b1"
        = some { storedBook with bookmarks := [7, 2, 3].foldl (fun acc p => toggleBookmarkList p acc) storedBook.bookmarks } ∧
      ([7, 2, 3].foldl (fun acc p => toggleBookmarkList p acc) storedBook.bookmarks).Sorted (· ≤ ·) ∧
      ([7, 2, 3].foldl (fun acc p => toggleBookmarkList p acc) storedBook.bookmarks).Nodup) :=
  ⟨rfl, rfl, toggles_keep_sorted_nodup [7, 2, 3] sampleStore "b1" storedBook rfl rfl
    (by decide) (by decide)⟩

/-- C4: the continuous-mode preload window and demotion policy.
(1) `shouldForceLoad` holds exactly for the pages within ±4 of `currentPage`,
so a jump to page N immediately force-mounts pages N-4 through N+4;
(2) a force-loaded page is mounted by the sync effect regardless of scroll
visibility, and (3) no event unmounts a mounted page while it is force-loaded;
(4) a mounted page demotes to a placeholder only when its height has been
measured (truthy), it is not force-loaded, and it is outside the intersection
margin — and demotion never discards the measured height;
(5) a demoted page's placeholder `minHeight` is exactly its last measured
height. -/
theorem preload_window_demotion :
    (∀ p cur : Int, shouldForceLoad p cur = true ↔ cur - 4 ≤ p ∧ p ≤ cur + 4) ∧
    (∀ s : LazyPageState, (lazyPageStep true LPEvent.syncEffect s).isInView = true) ∧
    (∀ (s : LazyPageState) (e : LPEvent),
        s.isInView = true → (lazyPageStep true e s).isInView = true) ∧
    (∀ (s : LazyPageState) (fl : Bool) (e : LPEvent),
        s.isInView = true → (lazyPageStep fl e s).isInView = false →
        jsTruthyHeight s.pageHeight = true ∧ fl = false ∧
        (lazyPageStep fl e s).isIntersecting = false ∧
        (lazyPageStep fl e s).pageHeight = s.pageHeight) ∧
    (∀ (s : LazyPageState) (h : ℚ) (w : Option ℚ),
        s.isIntersecting = false → s.pageHeight = some h → h ≠ 0 →
        (lazyPageStep false LPEvent.syncEffect s).isInView = false ∧
        (lazyPageStep false LPEvent.syncEffect s).pageHeight = some h ∧
        placeholderMinHeight w (lazyPageStep false LPEvent.syncEffect s) = h) := by
  refine ⟨?_, ?_, ?_, ?_, ?_⟩
  · intro p cur
    rw [shouldForceLoad, decide_eq_true_iff]
    omega
  · intro s
    simp [lazyPageStep]
  · intro s e hin
    cases e with
    | intersect b => cases b <;> simp [lazyPageStep, hin]
    | syncEffect => simp [lazyPageStep, hin]
    | renderSuccess h => simpa [lazyPageStep] using hin
    | widthScaleChange => simpa [lazyPageStep] using hin
  · intro s fl e hin hout
    cases e with
    | intersect b =>
      cases b with
      | true => simp [lazyPageStep] at hout
      | false =>
        cases hth : jsTruthyHeight s.pageHeight with
        | false => simp [lazyPageStep, hth, hin] at hout
        | true =>
          cases fl with
          | true => simp [lazyPageStep, hth, hin] at hout
          | false => simp [lazyPageStep, hth, hin]
    | syncEffect =>
      cases fl with
      | true => simp [lazyPageStep, hin] at hout
      | false =>
        cases hii : s.isIntersecting with
        | true => simp [lazyPageStep, hii, hin] at hout
        | false =>
          cases hth : jsTruthyHeight s.pageHeight with
          | false => simp [lazyPageStep, hii, hth, hin] at hout
          | true => simp [lazyPageStep, hii, hth, hin]
    | renderSuccess h => simp [lazyPageStep, hin] at hout
    | widthScaleChange => simp [lazyPageStep, hin] at hout
  · intro s h w hii hph hnz
    have hth : jsTruthyHeight s.pageHeight = true := by
      simp [jsTruthyHeight, hph, hnz]
    refine ⟨?_, ?_, ?_⟩
    · simp [lazyPageStep, hii, hth]
    · simp [lazyPageStep, hii, hph, jsTruthyHeight, hnz]
    · simp [lazyPageStep, hii, hph, jsTruthyHeight, hnz, placeholderMinHeight]

/-- A mounted, measured, out-of-margin page, as in the jump scenario. -/
def demoState : LazyPageState :=
  { isInView := true, isIntersecting := false, pageHeight := some 800 }

/-- Witness for C4: page 34 is inside the ±4 window of `currentPage = 30`; a
force-loaded placeholder mounts; and the mounted measured page `demoState`
demotes with its 800 px height retained as the placeholder height. -/
theorem preload_window_demotion_witness :
    shouldForceLoad 34 30 = true ∧
    (lazyPageStep true LPEvent.syncEffect (lazyPageInit false none)).isInView = true ∧
    demoState.isIntersecting = false ∧
    demoState.pageHeight = some 800 ∧
    ((lazyPageStep false LPEvent.syncEffect demoState).isInView = false ∧
      (lazyPageStep false LPEvent.syncEffect demoState).pageHeight = some 800 ∧
      placeholderMinHeight (some 600) (lazyPageStep false LPEvent.syncEffect demoState) = 800) :=
  ⟨(preload_window_demotion.1 34 30).mpr (by decide),
    preload_window_demotion.2.1 (lazyPageInit false none),
    rfl, rfl,
    preload_window_demotion.2.2.2.2 demoState 800 (some 600) rfl rfl (by norm_num)⟩
